import Mathlib

/-!
Verification development for the 16aa-server-session-monitor repository.

Shallow embedding conventions:
* Python `datetime` values (always timezone-aware UTC in the source) are
  modelled as `Int` seconds since the Unix epoch; `timedelta` values as `Int`
  seconds.  Comparison and subtraction of datetimes become integer comparison
  and subtraction.
* Python `Optional[T]` becomes `Option T`; `None` becomes `none`.
* Python dicts keyed by strings become association lists `List (String × α)`
  with first-match lookup (`dictFind`) and update-in-place-or-append
  (`dictSet`), mirroring CPython dict semantics for the operations the code
  performs.
* Python truthiness of an `Optional[str]` (`if x:`) is `strTruthy`:
  true iff the value is present and non-empty.  `datetime` objects are always
  truthy, so `if dt:` on an optional datetime is `Option.isSome`.
-/

set_option maxRecDepth 4096

namespace SessionMonitor

/-- Python truthiness of an `Optional[str]`. -/
def strTruthy : Option String → Bool
  | none => false
  | some s => s ≠ ""

/-- `str.strip()`: drop leading and trailing whitespace. -/
def pyStrip (s : String) : String :=
  String.mk
    (((s.data.dropWhile Char.isWhitespace).reverse.dropWhile
      Char.isWhitespace).reverse)

/-- `str.lower()`, character by character. -/
def pyLower (s : String) : String :=
  String.mk (s.data.map Char.toLower)

/-- Python `x or y` on two `Optional[str]` values. -/
def pyOr (x y : Option String) : Option String :=
  if strTruthy x then x else y

/-- First-match lookup in an association list (CPython `dict.get`). -/
def dictFind {α : Type} (l : List (String × α)) (k : String) : Option α :=
  match l with
  | [] => none
  | p :: rest => if p.1 = k then some p.2 else dictFind rest k

/-- CPython `d[k] = v`: update the first matching key in place, else append. -/
def dictSet {α : Type} (l : List (String × α)) (k : String) (v : α) :
    List (String × α) :=
  match l with
  | [] => [(k, v)]
  | p :: rest => if p.1 = k then (k, v) :: rest else p :: dictSet rest k v

/-! ## windows_sessions.py -/

/-- `IdleInfo` from `windows_sessions.py`. -/
structure IdleInfo where
  raw : String
  minutes : Option Int
deriving DecidableEq, Repr

/-- Accumulating helper for `takeDigits`. -/
def takeDigitsAux (acc : Nat) : List Char → Nat × List Char
  | [] => (acc, [])
  | c :: rest =>
    if c.isDigit then takeDigitsAux (acc * 10 + (c.toNat - 48)) rest
    else (acc, c :: rest)

/-- Leading run of ASCII digits of a character list (at least one), with the
value it denotes and the remaining characters; models a `\d+` regex group. -/
def takeDigits : List Char → Option (Nat × List Char)
  | [] => none
  | c :: rest =>
    if c.isDigit then some (takeDigitsAux (c.toNat - 48) rest) else none

/-- Full match of `(\d+)\+(\d+):(\d+)` (`re.fullmatch` in the source). -/
def matchDayHourMin (l : List Char) : Option (Nat × Nat × Nat) :=
  match takeDigits l with
  | some (d, '+' :: rest1) =>
    match takeDigits rest1 with
    | some (h, ':' :: rest2) =>
      match takeDigits rest2 with
      | some (m, []) => some (d, h, m)
      | _ => none
    | _ => none
  | _ => none

/-- Full match of `(\d+):(\d+)` (`re.fullmatch` in the source). -/
def matchHourMin (l : List Char) : Option (Nat × Nat) :=
  match takeDigits l with
  | some (h, ':' :: rest1) =>
    match takeDigits rest1 with
    | some (m, []) => some (h, m)
    | _ => none
  | _ => none

/-- `_parse_idle_to_minutes` from `windows_sessions.py`. -/
def parse_idle_to_minutes (raw0 : String) : Option Int :=
  let raw := pyStrip raw0
  if raw = "." ∨ raw = "none" ∨ raw = "None" ∨ raw = "" then
    some 0
  else
    match matchDayHourMin raw.data with
    | some (days, hours, minutes) =>
      some (((days : Int) * 24 + hours) * 60 + minutes)
    | none =>
      match matchHourMin raw.data with
      | some (hours, minutes) => some ((hours : Int) * 60 + minutes)
      | none =>
        -- `raw.isdigit()`: non-empty and all digits.
        if raw ≠ "" ∧ raw.data.all Char.isDigit then
          match takeDigits raw.data with
          | some (n, []) => some (n : Int)
          | _ => none
        else none

/-! ## geo.py -/

/-- One value of the geo cache mapping (JSON object per IP).  A success
refresh writes `{"summary": s, "fetched_at_utc": now}`; a failure refresh
writes `{"summary": None, "failed_at_utc": now, "failure_reason": r}`;
absent keys are `none`. -/
structure GeoEntry where
  summary : Option String
  fetched_at_utc : Option Int
  failed_at_utc : Option Int
  failure_reason : Option String
deriving DecidableEq, Repr

/-- The fresh-success check inside `GeoCache.get_geo_string` (geo.py lines
63-70): `if summary and fetched_raw: ... if (now - fetched) <= self.ttl:
return summary`.  Returns the summary to return, if that check fires. -/
def cachedFreshSummary (e : GeoEntry) (now ttl : Int) : Option String :=
  match e.summary, e.fetched_at_utc with
  | some s, some fetched =>
    if s ≠ "" ∧ now - fetched ≤ ttl then some s else none
  | _, _ => none

/-- The fresh-failure check inside `GeoCache.get_geo_string` (geo.py lines
71-77): `if failed_raw: ... if (now - failed) <= self.failure_ttl: return
None`. -/
def cachedFreshFailure (e : GeoEntry) (now failure_ttl : Int) : Bool :=
  match e.failed_at_utc with
  | some failed => now - failed ≤ failure_ttl
  | none => false

/-- What one call of `GeoCache.get_geo_string` produces: the returned value,
the cache mapping afterwards, how many network lookups were performed, and
the error passed to `_log_error` if any. -/
structure GeoOutcome where
  result : Option String
  cache : List (String × GeoEntry)
  networkCalls : Nat
  loggedError : Option String
deriving DecidableEq, Repr

/-- The tail of `GeoCache.get_geo_string` (geo.py lines 81-89): perform the
network lookup `fn` and cache its outcome.  `fn ip` models
`self._lookup_ipwho_is(ip)`, returning `(summary, error)`. -/
def geoPerformLookup (cache : List (String × GeoEntry)) (ip : String)
    (now : Int) (fn : String → Option String × Option String) : GeoOutcome :=
  let r := fn ip
  let summary := r.1
  let error := r.2
  if strTruthy summary then
    { result := summary
      cache := dictSet cache ip
        { summary := summary, fetched_at_utc := some now
          failed_at_utc := none, failure_reason := none }
      networkCalls := 1
      loggedError := none }
  else if strTruthy error then
    { result := summary
      cache := dictSet cache ip
        { summary := none, fetched_at_utc := none
          failed_at_utc := some now, failure_reason := error }
      networkCalls := 1
      loggedError := error }
  else
    { result := summary, cache := cache, networkCalls := 1, loggedError := none }

/-- `GeoCache.get_geo_string` (geo.py lines 52-89).  `enabled`, `ttl` and
`failure_ttl` are the instance configuration (`ttl` and `failure_ttl` in
seconds), `cache` the current mapping, `ipRaw` the argument, `now` the
current time and `fn` the network lookup. -/
def get_geo_string (enabled : Bool) (ttl failure_ttl : Int)
    (cache : List (String × GeoEntry)) (ipRaw : String) (now : Int)
    (fn : String → Option String × Option String) : GeoOutcome :=
  if enabled = false then
    { result := none, cache := cache, networkCalls := 0, loggedError := none }
  else
    let ip := pyStrip ipRaw
    if ip = "" then
      { result := none, cache := cache, networkCalls := 0, loggedError := none }
    else
      match dictFind cache ip with
      | some cached =>
        match cachedFreshSummary cached now ttl with
        | some s =>
          { result := some s, cache := cache, networkCalls := 0
            loggedError := none }
        | none =>
          if cachedFreshFailure cached now failure_ttl then
            { result := none, cache := cache, networkCalls := 0
              loggedError := none }
          else
            geoPerformLookup cache ip now fn
      | none => geoPerformLookup cache ip now fn

/-- The fields of the provider's JSON body that `_lookup_ipwho_is` consumes.
`success` models `data.get("success", True)` (so an absent flag is `true`);
`connection_org` and `connection_isp` model
`(data.get("connection") or {}).get(...)`. -/
structure IpwhoResp where
  status_code : Int
  success : Bool
  message : Option String
  city : Option String
  region : Option String
  country : Option String
  org : Option String
  connection_org : Option String
  connection_isp : Option String
deriving DecidableEq, Repr

/-- `", ".join(parts)`. -/
def joinCommaSpace : List String → String
  | [] => ""
  | [s] => s
  | s :: rest => s ++ ", " ++ joinCommaSpace rest

/-- `GeoCache._lookup_ipwho_is` (geo.py lines 91-118) on a response that
arrived (the transport-exception branch is a failure with a reason derived
from the exception class and is not modelled here). -/
def lookup_ipwho_is (resp : IpwhoResp) : Option String × Option String :=
  if resp.status_code ≠ 200 then
    (none, some ("ipwho status " ++ toString resp.status_code))
  else if resp.success = false then
    (none, some ((pyOr resp.message (some "ipwho error")).getD "ipwho error"))
  else
    let org :=
      if strTruthy resp.org then resp.org
      else pyOr resp.connection_org resp.connection_isp
    let parts := [resp.city, resp.region, resp.country].filterMap
      (fun p => if strTruthy p then p else none)
    let loc : Option String :=
      if parts ≠ [] then some (joinCommaSpace parts) else none
    if strTruthy loc ∧ strTruthy org then
      (some ((loc.getD "") ++ " | " ++ (org.getD "")), none)
    else
      (pyOr loc org, none)

/-! ## state_store.py -/

/-- A JSON value as far as the durable store needs one. -/
inductive StoreVal where
  | null : StoreVal
  | int (n : Int) : StoreVal
  | str (s : String) : StoreVal
  | bool (b : Bool) : StoreVal
deriving DecidableEq, Repr

/-- `StateStore.set_panel_message_id` (state_store.py lines 33-36): read the
store, set `data["panel_message_id"] = message_id`, write the result back.
`data` is the mapping read from the file; the returned mapping is what
`_write` serializes. -/
def set_panel_message_id (data : List (String × StoreVal))
    (message_id : Option Int) : List (String × StoreVal) :=
  dictSet data "panel_message_id"
    (match message_id with
     | some n => StoreVal.int n
     | none => StoreVal.null)

/-! ## wevtutil_security.py -/

/-- One parsed security-log event, reduced to the fields
`get_latest_rdp_logons` consumes: the `TimeCreated/@SystemTime` value (parsed
to UTC, `none` when absent or unparsable), `TargetUserName`, `LogonType` and
`IpAddress` from the event data. -/
structure SecEvent where
  time_utc : Option Int
  target_user : String
  logon_type : String
  ip : String
deriving DecidableEq, Repr

/-- The per-event update of `get_latest_rdp_logons` (wevtutil_security.py
lines 100-102): replace the held `(ip, time)` pair when none is held yet with
a time, or when the event's time is strictly later. -/
def logonStep (cur : Option String × Option Int) (ip : String)
    (event_time_utc : Option Int) : Option String × Option Int :=
  match cur.2 with
  | none => (some ip, event_time_utc)
  | some current_time =>
    match event_time_utc with
    | some t => if t > current_time then (some ip, event_time_utc) else cur
    | none => cur

/-- The filter conditions of the event loop in `get_latest_rdp_logons`
(wevtutil_security.py lines 88-98): the lower-cased target user is wanted,
the logon type is 10 or 7, and the IP is non-empty and not loopback.
`wanted` is the already lower-cased username set. -/
def eventQualifies (wanted : List String) (e : SecEvent) : Bool :=
  wanted.contains (pyLower e.target_user) &&
    (e.logon_type = "10" ∨ e.logon_type = "7") &&
    (e.ip ≠ "" ∧ e.ip ≠ "-" ∧ e.ip ≠ "::1" ∧ e.ip ≠ "127.0.0.1")

/-- The event loop of `get_latest_rdp_logons` (wevtutil_security.py lines
79-104) over the parsed events, as a map from lower-cased username to the
held `(ip, time)` pair; unwanted users keep the initial `(None, None)`. -/
def get_latest_rdp_logons (usernames : List String) (events : List SecEvent) :
    String → Option String × Option Int :=
  let wanted := usernames.map pyLower
  events.foldl
    (fun result e =>
      if eventQualifies wanted e then
        fun u =>
          if u = pyLower e.target_user then
            logonStep (result (pyLower e.target_user)) e.ip e.time_utc
          else result u
      else result)
    (fun _ => (none, none))

/-- The qualifying events of one fetch that concern user `u` (already
lower-cased), in scan order. -/
def qualifyingFor (usernames : List String) (events : List SecEvent)
    (u : String) : List SecEvent :=
  events.filter fun e =>
    eventQualifies (usernames.map pyLower) e &&
      pyLower e.target_user = u

/-- The latest non-null event timestamp of a list, `none` when every event's
timestamp is null. -/
def maxEventTime : List SecEvent → Option Int
  | [] => none
  | e :: rest =>
    match e.time_utc, maxEventTime rest with
    | none, m => m
    | some t, none => some t
    | some t, some m => some (max t m)

/-! ## main.py: pending-disconnect tolerance, reconciliation, transitions -/

/-- `SessionMonitorClient._pending_disconnect_tolerance` (seconds):
`timedelta(seconds=max(self.poll_seconds, self.security_poll_seconds) * 2)`. -/
def pending_disconnect_tolerance (poll_seconds security_poll_seconds : Int) : Int :=
  max poll_seconds security_poll_seconds * 2

/-- Body of the reconciliation loop in `update_panel` (main.py lines 396-401)
for one user: `pending_since` is the user's current pending-disconnect mark,
`disconnect_time` is `rdp_disconnect_by_user.get(username, (None, None))[1]`. -/
def reconcilePendingUser (tolerance : Int) (disconnect_time : Option Int)
    (pending_since : Option Int) : Option Int :=
  match pending_since with
  | none => pending_since
  | some ps =>
    match disconnect_time with
    | some d => if d ≥ ps - tolerance then none else pending_since
    | none => pending_since

/-- The whole reconciliation loop in `update_panel` (main.py lines 395-401):
runs over the `_pending_disconnect_since` map, reading the freshly fetched
disconnect snapshot. -/
def reconcilePending (tolerance : Int)
    (rdp_disconnect_by_user : String → Option String × Option Int)
    (pending : List (String × Option Int)) : List (String × Option Int) :=
  pending.map fun p =>
    (p.1, reconcilePendingUser tolerance (rdp_disconnect_by_user p.1).2 p.2)

/-- Transition detection in `update_panel` (main.py lines 379-385) for one
user: returns the new `_pending_disconnect_since` entry and the new
`_last_session_states` entry. -/
def transitionStep (prev_state current_state : String) (now : Int)
    (pending_since : Option Int) : Option Int × String :=
  if prev_state = "active" ∧ current_state ≠ "active" then
    (some now, current_state)
  else if current_state = "active" then
    (none, current_state)
  else
    (pending_since, current_state)

/-! ## main.py: formatting helpers -/

/-- `f"{n:02d}"`. -/
def pad2 (n : Nat) : String :=
  if n < 10 then "0" ++ toString n else toString n

/-- `%Y`: the year zero-padded to four digits. -/
def pad4 (n : Nat) : String :=
  if n < 10 then "000" ++ toString n
  else if n < 100 then "00" ++ toString n
  else if n < 1000 then "0" ++ toString n
  else toString n

/-- `_format_idle_minutes` (main.py lines 57-64).  Every call site passes a
non-negative parsed idle duration. -/
def format_idle_minutes (minutes : Int) : String :=
  if minutes < 60 then s!"{minutes}m"
  else
    let hours := minutes / 60
    let mins := minutes % 60
    if hours < 24 then s!"{hours}h {mins}m"
    else
      let days := hours / 24
      let hoursRem := hours % 24
      s!"{days}d {hoursRem}h {mins}m"

/-- `_format_duration_minutes` (main.py lines 91-98). -/
def format_duration_minutes (minutes : Int) : String :=
  if minutes < 1 then "0m"
  else
    let hours := minutes / 60
    let mins := minutes % 60
    if hours < 24 then
      if hours ≠ 0 then s!"{hours}h {mins}m" else s!"{mins}m"
    else
      let days := hours / 24
      let hoursRem := hours % 24
      s!"{days}d {hoursRem}h"

/-- `_format_duration_since` (main.py lines 101-108). -/
def format_duration_since (dt now : Int) : String :=
  let deltaSeconds := if now - dt < 0 then 0 else now - dt
  let minutes := deltaSeconds / 60
  if minutes < 1 then "just now"
  else s!"{format_duration_minutes minutes} ago"

/-- Proleptic-Gregorian civil date from days since the Unix epoch (the
standard era-based conversion; all divisions truncate toward zero exactly as
the algorithm requires). -/
def civilFromDays (z0 : Int) : Int × Int × Int :=
  let z := z0 + 719468
  let era : Int := (if 0 ≤ z then z else z - 146096) / 146097
  let doe := z - era * 146097
  let yoe := (doe - doe / 1460 + doe / 36524 - doe / 146096) / 365
  let y := yoe + era * 400
  let doy := doe - (365 * yoe + yoe / 4 - yoe / 100)
  let mp := (5 * doy + 2) / 153
  let d := doy - (153 * mp + 2) / 5 + 1
  let m := mp + (if mp < 10 then 3 else -9)
  (y + (if m ≤ 2 then 1 else 0), m, d)

/-- The host's local timezone, modelled as a fixed offset from UTC for
`datetime.astimezone()`. -/
def localTzOffsetSeconds : Int := 0

/-- `_format_event_time_local` (main.py lines 87-88):
`dt.astimezone().strftime("%d/%m/%Y %H:%M")`. -/
def format_event_time_local (t : Int) : String :=
  let lt := t + localTzOffsetSeconds
  let days := Int.fdiv lt 86400
  let sod := lt - 86400 * days
  let ymd := civilFromDays days
  let hour := sod / 3600
  let minute := sod % 3600 / 60
  pad2 ymd.2.2.toNat ++ "/" ++ pad2 ymd.2.1.toNat ++ "/" ++ pad4 ymd.1.toNat
    ++ " " ++ pad2 hour.toNat ++ ":" ++ pad2 minute.toNat

/-! ### `_format_logon_time` and its regex
`re.search(r"(?i)(\d{1,2}):(\d{2})(?::\d{2})?\s*([ap]\.?m\.?)?", raw)`,
implemented as a leftmost scan with the pattern's greedy semantics. -/

/-- `[ap]` case-insensitively. -/
def isMeridiemStart (c : Char) : Bool :=
  c = 'a' ∨ c = 'A' ∨ c = 'p' ∨ c = 'P'

/-- `m` case-insensitively. -/
def isMeridiemM (c : Char) : Bool :=
  c = 'm' ∨ c = 'M'

/-- Match `[ap]\.?m\.?` at the head: the matched characters and the rest. -/
def matchMeridiem : List Char → Option (List Char × List Char)
  | [] => none
  | c :: rest =>
    if isMeridiemStart c then
      match rest with
      | '.' :: m :: rest2 =>
        if isMeridiemM m then
          match rest2 with
          | '.' :: rest3 => some ([c, '.', m, '.'], rest3)
          | _ => some ([c, '.', m], rest2)
        else none
      | m :: rest2 =>
        if isMeridiemM m then
          match rest2 with
          | '.' :: rest3 => some ([c, m, '.'], rest3)
          | _ => some ([c, m], rest2)
        else none
      | [] => none
    else none

/-- Match `:(\d{2})(?::\d{2})?\s*([ap]\.?m\.?)?` at the head: the minute
value, the meridiem group if present, and the rest after the whole match. -/
def matchColonPart (l : List Char) : Option (Nat × Option (List Char) × List Char) :=
  match l with
  | ':' :: d1 :: d2 :: rest =>
    if d1.isDigit ∧ d2.isDigit then
      let minute := 10 * (d1.toNat - 48) + (d2.toNat - 48)
      let afterSeconds :=
        match rest with
        | ':' :: e1 :: e2 :: rest2 =>
          if e1.isDigit ∧ e2.isDigit then rest2 else rest
        | _ => rest
      let afterWs := afterSeconds.dropWhile Char.isWhitespace
      match matchMeridiem afterWs with
      | some (mer, rest3) => some (minute, some mer, rest3)
      | none => some (minute, none, afterWs)
    else none
  | _ => none

/-- A match of the logon-time regex inside a string: the characters before
the match, the captured hour and minute, the meridiem group, and the
characters after the match. -/
structure TimeMatch where
  pre : List Char
  hour : Nat
  minute : Nat
  meridiem : Option (List Char)
  suffix : List Char
deriving DecidableEq, Repr

/-- Match the whole pattern at the head of the list (`\d{1,2}` greedy: a
two-digit hour is preferred when the rest still matches). -/
def matchTimeCore (l : List Char) : Option TimeMatch :=
  match l with
  | [] => none
  | c0 :: rest0 =>
    if ¬ c0.isDigit then none
    else
      match rest0 with
      | [] => none
      | c1 :: rest1 =>
        if c1.isDigit then
          match matchColonPart rest1 with
          | some (minute, mer, suffix) =>
            some ⟨[], 10 * (c0.toNat - 48) + (c1.toNat - 48), minute, mer, suffix⟩
          | none =>
            (matchColonPart rest0).map fun r =>
              ⟨[], c0.toNat - 48, r.1, r.2.1, r.2.2⟩
        else
          (matchColonPart rest0).map fun r =>
            ⟨[], c0.toNat - 48, r.1, r.2.1, r.2.2⟩

/-- `re.search`: try the pattern at each position, leftmost match wins. -/
def searchTime : List Char → Option TimeMatch
  | [] => none
  | c :: rest =>
    match matchTimeCore (c :: rest) with
    | some tm => some tm
    | none =>
      match searchTime rest with
      | some tm => some ⟨c :: tm.pre, tm.hour, tm.minute, tm.meridiem, tm.suffix⟩
      | none => none

/-- `meridiem.lower().replace(".", "")`. -/
def meridiemNorm (mer : List Char) : String :=
  String.mk ((mer.map Char.toLower).filter fun c => c ≠ '.')

/-- `_format_logon_time` (main.py lines 67-84). -/
def format_logon_time (raw : String) : String :=
  if raw = "" then raw
  else
    match searchTime raw.data with
    | none => raw
    | some tm =>
      let hour :=
        match tm.meridiem with
        | some mer =>
          let ms := meridiemNorm mer
          if ms = "pm" ∧ tm.hour < 12 then tm.hour + 12
          else if ms = "am" ∧ tm.hour = 12 then 0
          else tm.hour
        | none => tm.hour
      String.mk tm.pre ++ pad2 hour ++ ":" ++ pad2 tm.minute
        ++ String.mk tm.suffix

/-! ## main.py: rows, embed rendering and the stable fingerprint -/

/-- `UserPanelRow` (main.py lines 111-125). -/
structure UserPanelRow where
  username : String
  state : String
  idle : IdleInfo
  engaged : Bool
  session_id : Option String
  session_name : Option String
  logon_time_raw : Option String
  last_rdp_ip : Option String
  last_rdp_time_utc : Option Int
  last_rdp_disconnect_time_utc : Option Int
  pending_disconnect_since : Option Int
  pending_disconnect : Bool
  last_rdp_geo : Option String
deriving DecidableEq, Repr

/-- `SessionMonitorClient._status_dot` (main.py lines 158-161). -/
def statusDot (row : UserPanelRow) : String :=
  if pyLower row.state = "active" then
    if row.engaged then ":red_circle:" else ":yellow_circle:"
  else ":green_circle:"

/-- `SessionMonitorClient._display_name` (main.py lines 155-156);
`user_aliases` is keyed by lower-cased usernames. -/
def display_name (user_aliases : List (String × String)) (username : String) :
    String :=
  (dictFind user_aliases (pyLower username)).getD username

/-- `"\n".join(lines)`. -/
def joinNewline : List String → String
  | [] => ""
  | [s] => s
  | s :: rest => s ++ "\n" ++ joinNewline rest

/-- The value text of one row's embed field: the `lines` list built in
`_build_embed` (main.py lines 300-351), joined with newlines. -/
def buildFieldValue (tolerance : Int) (row : UserPanelRow)
    (last_checked_utc : Int) : String :=
  let idle_display :=
    match row.idle.minutes with
    | some m => format_idle_minutes m
    | none => row.idle.raw
  let state_display :=
    if pyLower row.state = "disc" then "Disconnected" else row.state
  if pyLower row.state = "active" then
    let engaged_text := if row.engaged then "Yes" else "No"
    let line1 :=
      s!"State: `{state_display}` | Engaged: `{engaged_text}` | Idle: `{idle_display}`"
    let minutes : Option Int :=
      match row.last_rdp_time_utc with
      | some t => some ((max 0 (last_checked_utc - t)) / 60)
      | none => none
    let duration : Option String :=
      match minutes with
      | some m => some (format_duration_minutes m)
      | none => none
    if strTruthy row.last_rdp_ip then
      let ipText := row.last_rdp_ip.getD ""
      let ipLine0 := s!"Connected: `{ipText}`"
      let ipLine1 :=
        if strTruthy row.last_rdp_geo then
          let geoText := row.last_rdp_geo.getD ""
          ipLine0 ++ s!" ({geoText})"
        else ipLine0
      let ipLine2 :=
        if strTruthy duration then
          let durText := duration.getD ""
          ipLine1 ++ s!" | `{durText}`"
        else ipLine1
      joinNewline [line1, ipLine2]
    else
      let ipLine0 := "Connected: `(unknown)`"
      let ipLine1 :=
        if strTruthy duration then
          let durText := duration.getD ""
          ipLine0 ++ s!" | `{durText}`"
        else ipLine0
      joinNewline [line1, ipLine1]
  else
    let line1 := s!"State: `{state_display}`"
    -- main.py lines 329-335: a pending disconnect not yet corroborated by an
    -- event record short-circuits the rest of the chain (`continue`).
    let pendingUnconfirmed : Bool :=
      match row.pending_disconnect_since with
      | some ps =>
        match row.last_rdp_disconnect_time_utc with
        | none => true
        | some d => d < ps - tolerance
      | none => false
    if pendingUnconfirmed then
      joinNewline [line1, "Last Connected: `...`"]
    else
      let tail :=
        if row.pending_disconnect && row.last_rdp_disconnect_time_utc.isNone then
          "Last Connected: `...`"
        else
          match row.last_rdp_disconnect_time_utc with
          | some d =>
            let disp := format_event_time_local d
            let dur := format_duration_since d last_checked_utc
            s!"Last Connected: `{disp} ({dur})`"
          | none =>
            match row.last_rdp_time_utc with
            | some t =>
              let disp := format_event_time_local t
              let dur := format_duration_since t last_checked_utc
              s!"Last Connected: `{disp} ({dur})`"
            | none =>
              if strTruthy row.logon_time_raw then
                let ltr := row.logon_time_raw.getD ""
                let disp := format_logon_time ltr
                s!"Last Connected: `{disp}`"
              else "Last Connected: `-`"
      joinNewline [line1, tail]

/-- One row's embed field: `(name, value)` as added by `embed.add_field`
(main.py lines 333-334 and 353-354; both sites build the same name). -/
def buildField (tolerance : Int) (user_aliases : List (String × String))
    (row : UserPanelRow) (last_checked_utc : Int) : String × String :=
  let dn := display_name user_aliases row.username
  (s!"{statusDot row} {dn}", buildFieldValue tolerance row last_checked_utc)

/-- The embed document as far as its serialization is concerned: title,
ordered fields, timestamp (color and footer text are constants). -/
structure PanelEmbed where
  title : String
  fields : List (String × String)
  timestamp : Int
deriving DecidableEq, Repr

/-- `SessionMonitorClient._build_embed` (main.py lines 292-356). -/
def build_embed (tolerance : Int) (hostname : String)
    (user_aliases : List (String × String)) (rows : List UserPanelRow)
    (last_checked_utc : Int) : PanelEmbed :=
  { title := s!"RDP Session Monitor ({hostname})"
    fields := rows.map fun row =>
      buildField tolerance user_aliases row last_checked_utc
    timestamp := last_checked_utc }

/-- JSON string escaping as far as the embed's text can need it. -/
def jsonEscapeChar (c : Char) : String :=
  if c = '\\' then "\\\\"
  else if c = '"' then "\\\""
  else if c = '\n' then "\\n"
  else String.singleton c

/-- A JSON string literal. -/
def jsonStr (s : String) : String :=
  "\"" ++ String.join (s.data.map jsonEscapeChar) ++ "\""

/-- `",".join`. -/
def joinComma : List String → String
  | [] => ""
  | [s] => s
  | s :: rest => s ++ "," ++ joinComma rest

/-- One field of `embed.to_dict()["fields"]`, serialized with sorted keys. -/
def fieldToJson (f : String × String) : String :=
  "\x7b\"inline\":false,\"name\":" ++ jsonStr f.1 ++ ",\"value\":"
    ++ jsonStr f.2 ++ "\x7d"

/-- `SessionMonitorClient._embed_to_stable_json` (main.py lines 358-361):
`embed.to_dict()` with the `timestamp` key popped, dumped with sorted keys
and compact separators.  The color value is
`discord.Color.from_rgb(70, 70, 70).value = 4605510` and the footer text is
the constant "Last checked". -/
def embed_to_stable_json (e : PanelEmbed) : String :=
  "\x7b\"color\":4605510,\"fields\":[" ++ joinComma (e.fields.map fieldToJson)
    ++ "],\"footer\":\x7b\"text\":\"Last checked\"\x7d,\"title\":"
    ++ jsonStr e.title ++ ",\"type\":\"rich\"\x7d"

/-- Rendering plus fingerprinting in one step: the fingerprint `update_panel`
computes from a row set at a given "last checked" time. -/
def panelFingerprint (tolerance : Int) (hostname : String)
    (user_aliases : List (String × String)) (rows : List UserPanelRow)
    (last_checked_utc : Int) : String :=
  embed_to_stable_json
    (build_embed tolerance hostname user_aliases rows last_checked_utc)

/-! ## main.py: publisher fingerprint gate -/

/-- The fingerprint gate in `update_panel` (main.py lines 411-414): given the
previously published fingerprint (`_last_embed_json`) and the fresh one,
returns whether `message.edit` is called and the new stored fingerprint. -/
def publishStep (last_embed_json : Option String) (embed_json : String) :
    Bool × Option String :=
  if some embed_json ≠ last_embed_json then
    (true, some embed_json)
  else
    (false, last_embed_json)

/-- Iterated ticks of the fingerprint gate: total number of edit calls and
final stored fingerprint over a sequence of fresh fingerprints. -/
def publishRun (last_embed_json : Option String) (fingerprints : List String) :
    Nat × Option String :=
  fingerprints.foldl
    (fun acc j =>
      let r := publishStep acc.2 j
      (acc.1 + (if r.1 then 1 else 0), r.2))
    (0, last_embed_json)

/-! ## Shared lemmas -/

/-- `dictFind` after `dictSet`: the set key reads back the new value, every
other key reads as before. -/
theorem dictFind_dictSet {α : Type} (l : List (String × α)) (k : String)
    (v : α) (k' : String) :
    dictFind (dictSet l k v) k' = if k' = k then some v else dictFind l k' := by
  induction l with
  | nil =>
    rcases eq_or_ne k' k with h | h
    · simp [dictSet, dictFind, h]
    · simp [dictSet, dictFind, h, Ne.symm h]
  | cons p rest ih =>
    by_cases hp : p.1 = k
    · rcases eq_or_ne k' k with h | h
      · subst h
        simp [dictSet, dictFind, hp]
      · have hp' : p.1 ≠ k' := by
          rw [hp]; exact Ne.symm h
        simp [dictSet, dictFind, hp, hp', h, Ne.symm h]
    · rcases eq_or_ne p.1 k' with h | h
      · have hk : k' ≠ k := fun hh => hp (h.trans hh)
        simp [dictSet, dictFind, hp, h, hk]
      · simp [dictSet, dictFind, hp, h, ih]

/-! ## C1 -/

/-- C1: whenever a fresh security snapshot is fetched, the reconciliation
loop clears a non-null `pending_disconnect_since` exactly when the snapshot
holds a disconnect event for that user with a non-null timestamp at or after
`pending_disconnect_since - tolerance`, where the tolerance is
`2 * max(session_poll_interval, security_poll_interval)` seconds; a null
entry is left unchanged, and an uncleared entry keeps its value. -/
theorem c1_pending_reconciliation (poll_seconds security_poll_seconds : Int)
    (disconnect_time : Option Int) (ps : Int)
    (rdp_disconnect_by_user : String → Option String × Option Int)
    (pending : List (String × Option Int))
    (tolerance : Int)
    (htol : tolerance =
      pending_disconnect_tolerance poll_seconds security_poll_seconds) :
    tolerance = 2 * max poll_seconds security_poll_seconds ∧
    (reconcilePendingUser tolerance disconnect_time (some ps) = none ↔
      ∃ d, disconnect_time = some d ∧ ps - tolerance ≤ d) ∧
    (reconcilePendingUser tolerance disconnect_time (some ps) = none ∨
      reconcilePendingUser tolerance disconnect_time (some ps) = some ps) ∧
    reconcilePendingUser tolerance disconnect_time none = none ∧
    reconcilePending tolerance rdp_disconnect_by_user pending =
      pending.map (fun p =>
        (p.1, reconcilePendingUser tolerance (rdp_disconnect_by_user p.1).2 p.2)) := by
  subst htol
  refine ⟨mul_comm _ _, ?_, ?_, rfl, rfl⟩
  all_goals
    set tolerance :=
      pending_disconnect_tolerance poll_seconds security_poll_seconds with htol
  · cases disconnect_time with
    | none => simp [reconcilePendingUser]
    | some d =>
      simp only [reconcilePendingUser, ge_iff_le]
      by_cases h : ps - tolerance ≤ d
      · rw [if_pos h]
        exact ⟨fun _ => ⟨d, rfl, h⟩, fun _ => rfl⟩
      · rw [if_neg h]
        constructor
        · intro hc; exact absurd hc (by simp)
        · rintro ⟨d', hd', hle⟩
          injection hd' with hdd
          subst hdd
          exact absurd hle h
  · cases disconnect_time with
    | none => right; rfl
    | some d =>
      simp only [reconcilePendingUser, ge_iff_le]
      by_cases h : ps - tolerance ≤ d
      · left; rw [if_pos h]
      · right; rw [if_neg h]

/-- C1 witness: with poll intervals 15 and 60 the tolerance is 120 seconds,
and a disconnect event at time 950 clears a pending mark stamped at 1000. -/
theorem c1_pending_reconciliation_witness :
    reconcilePendingUser 120 (some 950) (some 1000) = none :=
  ((c1_pending_reconciliation 15 60 (some 950) 1000
      (fun _ => (none, none)) [] 120 (by decide)).2.1).mpr
    ⟨950, rfl, by decide⟩

/-! ## C3 -/

/-- C3: per user and tick, an active-to-non-active transition stamps
`pending_disconnect_since` with the current time, a currently active state
clears it, anything else leaves it unchanged; the stored previous state
always becomes the current state. -/
theorem c3_transition_detection (prev_state current_state : String)
    (now : Int) (pending : Option Int) :
    (transitionStep prev_state current_state now pending).2 = current_state ∧
    (prev_state = "active" → current_state ≠ "active" →
      (transitionStep prev_state current_state now pending).1 = some now) ∧
    (current_state = "active" →
      (transitionStep prev_state current_state now pending).1 = none) ∧
    (¬ (prev_state = "active" ∧ current_state ≠ "active") →
      current_state ≠ "active" →
      (transitionStep prev_state current_state now pending).1 = pending) := by
  by_cases hp : prev_state = "active" <;>
    by_cases hc : current_state = "active" <;>
      simp [transitionStep, hp, hc]

/-- C3 witness: the three transition cases at concrete inputs. -/
theorem c3_transition_detection_witness :
    (transitionStep "active" "disc" 42 (some 7)).1 = some 42 ∧
    (transitionStep "disc" "active" 42 (some 7)).1 = none ∧
    (transitionStep "disc" "missing" 42 (some 7)).1 = some 7 :=
  ⟨(c3_transition_detection "active" "disc" 42 (some 7)).2.1 rfl (by decide),
   (c3_transition_detection "disc" "active" 42 (some 7)).2.2.1 rfl,
   (c3_transition_detection "disc" "missing" 42 (some 7)).2.2.2
     (by decide) (by decide)⟩

/-! ## C4 -/

/-- C4 counterexample: the idle parser maps `"1+03:30"` (one day, three
hours, thirty minutes) to 1650 minutes, not to the claimed 1590. -/
theorem c4_idle_parser_claim_false :
    parse_idle_to_minutes "1+03:30" ≠ some 1590 := by decide

/-- C4 as amended: the idle-text parser returns 45 for `"45"`, 135 for
`"2:15"`, 1650 for `"1+03:30"`, 0 for `"."` and `""`, and null for
`"garbage"`. -/
theorem c4_idle_parser_values :
    parse_idle_to_minutes "45" = some 45 ∧
    parse_idle_to_minutes "2:15" = some 135 ∧
    parse_idle_to_minutes "1+03:30" = some 1650 ∧
    parse_idle_to_minutes "." = some 0 ∧
    parse_idle_to_minutes "" = some 0 ∧
    parse_idle_to_minutes "garbage" = none := by
  refine ⟨by decide, by decide, by decide, by decide, by decide, by decide⟩

/-! ## C7 -/

/-- Auxiliary: once the stored fingerprint equals `j`, ticks whose
fingerprint is `j` neither edit nor change the accumulator. -/
theorem publishRun_foldl_const (j : String) (ticks : List String) (n : Nat)
    (h : ∀ x ∈ ticks, x = j) :
    ticks.foldl
      (fun acc x =>
        let r := publishStep acc.2 x
        (acc.1 + (if r.1 then 1 else 0), r.2))
      (n, some j) = (n, some j) := by
  induction ticks generalizing n with
  | nil => rfl
  | cons x rest ih =>
    have hx : x = j := h x (List.mem_cons_self x rest)
    have hr : ∀ y ∈ rest, y = j := fun y hy => h y (List.mem_cons_of_mem x hy)
    subst hx
    simpa [publishStep] using ih n hr

/-- C7: a tick issues a message edit exactly when the fresh fingerprint
differs from the stored one (which is then updated); across any run of ticks
whose fingerprint equals the already-published one, zero edits are issued. -/
theorem c7_publisher_edit_gate (last_embed_json : Option String)
    (embed_json : String) (ticks : List String) :
    ((publishStep last_embed_json embed_json).1 = true ↔
      some embed_json ≠ last_embed_json) ∧
    ((publishStep last_embed_json embed_json).1 = true →
      (publishStep last_embed_json embed_json).2 = some embed_json) ∧
    ((publishStep last_embed_json embed_json).1 = false →
      (publishStep last_embed_json embed_json).2 = last_embed_json) ∧
    ((∀ x ∈ ticks, x = embed_json) →
      (publishRun (some embed_json) ticks).1 = 0) := by
  refine ⟨?_, ?_, ?_, ?_⟩
  · by_cases h : some embed_json = last_embed_json <;> simp [publishStep, h]
  · by_cases h : some embed_json = last_embed_json <;> simp [publishStep, h]
  · by_cases h : some embed_json = last_embed_json <;> simp [publishStep, h]
  · intro h
    unfold publishRun
    rw [publishRun_foldl_const embed_json ticks 0 h]

/-- C7 witness: a changed fingerprint edits once, then two identical ticks
edit zero times. -/
theorem c7_publisher_edit_gate_witness :
    ((publishStep none "fp").1 = true) ∧
    (publishRun (some "fp") ["fp", "fp"]).1 = 0 :=
  ⟨((c7_publisher_edit_gate none "fp" []).1).mpr (by decide),
   (c7_publisher_edit_gate (some "x") "fp" ["fp", "fp"]).2.2.2 (by decide)⟩

/-! ## C9 -/

/-- C9: writing the panel message id rewrites exactly the
`panel_message_id` key of the durable store mapping (to the integer value,
or to JSON null) and leaves every other key's value unchanged. -/
theorem c9_set_panel_message_id_frame (data : List (String × StoreVal))
    (message_id : Option Int) (k : String) :
    dictFind (set_panel_message_id data message_id) "panel_message_id" =
      some (match message_id with
            | some n => StoreVal.int n
            | none => StoreVal.null) ∧
    (k ≠ "panel_message_id" →
      dictFind (set_panel_message_id data message_id) k = dictFind data k) := by
  unfold set_panel_message_id
  constructor
  · rw [dictFind_dictSet]
    simp
  · intro hk
    rw [dictFind_dictSet]
    simp [hk]

/-! ## C5, C8, C10: the geo cache -/

/-- `strTruthy` holds exactly of a present, non-empty string. -/
theorem strTruthy_eq_true (o : Option String) :
    strTruthy o = true ↔ ∃ s, o = some s ∧ s ≠ "" := by
  cases o with
  | none => simp [strTruthy]
  | some s => simp [strTruthy]

/-- Every branch of the lookup tail performs exactly one network call. -/
theorem geoPerformLookup_networkCalls (cache : List (String × GeoEntry))
    (ip : String) (now : Int) (fn : String → Option String × Option String) :
    (geoPerformLookup cache ip now fn).networkCalls = 1 := by
  unfold geoPerformLookup
  by_cases h1 : strTruthy (fn ip).1 <;> by_cases h2 : strTruthy (fn ip).2 <;>
    simp [h1, h2]

/-- C5: the geo cache performs a network lookup only as a last resort — a
disabled cache or empty input returns null untouched with no call; a cached
success entry within the success TTL answers from cache with no call; with
no fresh success, a cached failure entry within the failure TTL answers null
with no call; in every remaining case exactly one network lookup runs. -/
theorem c5_geo_cache_gating (enabled : Bool) (ttl failure_ttl : Int)
    (cache : List (String × GeoEntry)) (ip : String) (now : Int)
    (fn : String → Option String × Option String) :
    (enabled = false →
      get_geo_string enabled ttl failure_ttl cache ip now fn =
        ⟨none, cache, 0, none⟩) ∧
    (pyStrip ip = "" →
      get_geo_string enabled ttl failure_ttl cache ip now fn =
        ⟨none, cache, 0, none⟩) ∧
    (∀ e s f, enabled = true →
      dictFind cache (pyStrip ip) = some e →
      e.summary = some s → s ≠ "" → e.fetched_at_utc = some f →
      now - f ≤ ttl → pyStrip ip ≠ "" →
      get_geo_string enabled ttl failure_ttl cache ip now fn =
        ⟨some s, cache, 0, none⟩) ∧
    (∀ e fl, enabled = true →
      dictFind cache (pyStrip ip) = some e →
      cachedFreshSummary e now ttl = none →
      e.failed_at_utc = some fl → now - fl ≤ failure_ttl → pyStrip ip ≠ "" →
      get_geo_string enabled ttl failure_ttl cache ip now fn =
        ⟨none, cache, 0, none⟩) ∧
    (enabled = true → pyStrip ip ≠ "" →
      (dictFind cache (pyStrip ip) = none ∨
        ∃ e, dictFind cache (pyStrip ip) = some e ∧
          cachedFreshSummary e now ttl = none ∧
          cachedFreshFailure e now failure_ttl = false) →
      (get_geo_string enabled ttl failure_ttl cache ip now fn).networkCalls
        = 1) := by
  refine ⟨?_, ?_, ?_, ?_, ?_⟩
  · intro hen
    simp [get_geo_string, hen]
  · intro hip
    by_cases hen : enabled = false <;> simp [get_geo_string, hen, hip]
  · intro e s f hen hfind hsum hs hfetch httl hip
    have hfresh : cachedFreshSummary e now ttl = some s := by
      simp [cachedFreshSummary, hsum, hfetch, hs, httl]
    simp [get_geo_string, hen, hip, hfind, hfresh]
  · intro e fl hen hfind hfresh hfail hfl hip
    have hff : cachedFreshFailure e now failure_ttl = true := by
      simp [cachedFreshFailure, hfail, hfl]
    simp [get_geo_string, hen, hip, hfind, hfresh, hff]
  · intro hen hip hmiss
    rcases hmiss with hnone | ⟨e, hfind, hfresh, hff⟩
    · simp [get_geo_string, hen, hip, hnone, geoPerformLookup_networkCalls]
    · simp [get_geo_string, hen, hip, hfind, hfresh, hff,
        geoPerformLookup_networkCalls]

/-- C5 witness: with an empty cache, one concrete lookup makes exactly one
network call, and a disabled cache makes none. -/
theorem c5_geo_cache_gating_witness :
    (get_geo_string true 86400 1800 [] "1.2.3.4" 1000
      (fun _ => (some "City", none))).networkCalls = 1 ∧
    get_geo_string false 86400 1800 [] "1.2.3.4" 1000
      (fun _ => (some "City", none)) = ⟨none, [], 0, none⟩ :=
  ⟨(c5_geo_cache_gating true 86400 1800 [] "1.2.3.4" 1000
      (fun _ => (some "City", none))).2.2.2.2 rfl (by decide) (Or.inl rfl),
   (c5_geo_cache_gating false 86400 1800 [] "1.2.3.4" 1000
      (fun _ => (some "City", none))).1 rfl⟩

/-- A refreshed cache entry in success shape: summary and fetch time present,
failure fields absent. -/
def geoSuccessShape (e : GeoEntry) : Prop :=
  (∃ s, e.summary = some s) ∧ (∃ t, e.fetched_at_utc = some t) ∧
    e.failed_at_utc = none ∧ e.failure_reason = none

/-- A refreshed cache entry in failure shape: summary and fetch time absent,
failure time and reason present. -/
def geoFailureShape (e : GeoEntry) : Prop :=
  e.summary = none ∧ e.fetched_at_utc = none ∧
    (∃ t, e.failed_at_utc = some t) ∧ ∃ r, e.failure_reason = some r

/-- The lookup tail either leaves the cache unchanged or writes one entry in
exactly one of the two shapes. -/
theorem geoPerformLookup_cache_shape (cache : List (String × GeoEntry))
    (ip : String) (now : Int) (fn : String → Option String × Option String) :
    (geoPerformLookup cache ip now fn).cache = cache ∨
      ∃ e, (geoPerformLookup cache ip now fn).cache = dictSet cache ip e ∧
        (geoSuccessShape e ∨ geoFailureShape e) ∧
        ¬ (geoSuccessShape e ∧ geoFailureShape e) := by
  by_cases h1 : strTruthy (fn ip).1
  · right
    obtain ⟨s, hs, hne⟩ := (strTruthy_eq_true _).mp h1
    refine ⟨⟨(fn ip).1, some now, none, none⟩,
      by simp [geoPerformLookup, h1], ?_, ?_⟩
    · exact Or.inl ⟨⟨s, hs⟩, ⟨now, rfl⟩, rfl, rfl⟩
    · rintro ⟨hsucc, hfail⟩
      obtain ⟨t, ht⟩ := hfail.2.2.1
      exact Option.noConfusion ht
  · by_cases h2 : strTruthy (fn ip).2
    · right
      obtain ⟨r, hr, hrne⟩ := (strTruthy_eq_true _).mp h2
      refine ⟨⟨none, none, some now, (fn ip).2⟩,
        by simp [geoPerformLookup, h1, h2], ?_, ?_⟩
      · exact Or.inr ⟨rfl, rfl, ⟨now, rfl⟩, ⟨r, hr⟩⟩
      · rintro ⟨hsucc, hfail⟩
        obtain ⟨s, hs⟩ := hsucc.1
        exact Option.noConfusion hs
    · left
      simp [geoPerformLookup, h1, h2]

/-- C8: every cache refresh writes an entry that populates exactly the
success fields or exactly the failure fields, never both; and once the
failure TTL has elapsed, a successful lookup for the same IP overwrites the
failure entry with a success entry (and returns the fresh summary). -/
theorem c8_geo_refresh_entry_shapes (enabled : Bool) (ttl failure_ttl : Int)
    (cache : List (String × GeoEntry)) (ip : String) (now : Int)
    (fn : String → Option String × Option String) :
    ((get_geo_string enabled ttl failure_ttl cache ip now fn).cache = cache ∨
      ∃ e, (get_geo_string enabled ttl failure_ttl cache ip now fn).cache =
          dictSet cache (pyStrip ip) e ∧
        (geoSuccessShape e ∨ geoFailureShape e) ∧
        ¬ (geoSuccessShape e ∧ geoFailureShape e)) ∧
    (∀ e fl s err, enabled = true → pyStrip ip ≠ "" →
      dictFind cache (pyStrip ip) = some e →
      cachedFreshSummary e now ttl = none →
      e.failed_at_utc = some fl → failure_ttl < now - fl →
      fn (pyStrip ip) = (some s, err) → s ≠ "" →
      dictFind (get_geo_string enabled ttl failure_ttl cache ip now fn).cache
          (pyStrip ip) = some ⟨some s, some now, none, none⟩ ∧
      (get_geo_string enabled ttl failure_ttl cache ip now fn).result
        = some s) := by
  constructor
  · by_cases hen : enabled = false
    · left; simp [get_geo_string, hen]
    · by_cases hip : pyStrip ip = ""
      · left; simp [get_geo_string, hen, hip]
      · cases hfind : dictFind cache (pyStrip ip) with
        | none =>
          have := geoPerformLookup_cache_shape cache (pyStrip ip) now fn
          simpa [get_geo_string, hen, hip, hfind] using this
        | some e =>
          cases hfresh : cachedFreshSummary e now ttl with
          | some s => left; simp [get_geo_string, hen, hip, hfind, hfresh]
          | none =>
            by_cases hff : cachedFreshFailure e now failure_ttl
            · left; simp [get_geo_string, hen, hip, hfind, hfresh, hff]
            · have := geoPerformLookup_cache_shape cache (pyStrip ip) now fn
              simpa [get_geo_string, hen, hip, hfind, hfresh, hff] using this
  · intro e fl s err hen hip hfind hfresh hfail hstale hfn hs
    have hff : cachedFreshFailure e now failure_ttl = false := by
      simp only [cachedFreshFailure, hfail]
      simp [not_le.mpr hstale]
    have hts : strTruthy (some s) = true := by simp [strTruthy, hs]
    constructor
    · simp [get_geo_string, hen, hip, hfind, hfresh, hff, geoPerformLookup,
        hts, hfn, dictFind_dictSet]
    · simp [get_geo_string, hen, hip, hfind, hfresh, hff, geoPerformLookup,
        hts, hfn]

/-- C8 witness: a stale failure entry is overwritten by a fresh success for
the same IP. -/
theorem c8_geo_refresh_entry_shapes_witness :
    dictFind
      (get_geo_string true 86400 1800
        [("1.2.3.4", ⟨none, none, some 0, some "ipwho status 500"⟩)]
        "1.2.3.4" 5000 (fun _ => (some "City", none))).cache
      "1.2.3.4" = some ⟨some "City", some 5000, none, none⟩ :=
  ((c8_geo_refresh_entry_shapes true 86400 1800
      [("1.2.3.4", ⟨none, none, some 0, some "ipwho status 500"⟩)]
      "1.2.3.4" 5000 (fun _ => (some "City", none))).2
    ⟨none, none, some 0, some "ipwho status 500"⟩ 0 "City" none
    rfl (by decide) (by decide) (by decide) (by decide) (by decide)
    rfl (by decide)).1

/-- C10: a provider response of HTTP 200 with a true success flag but no
city, region, country or organization yields `(None, None)` from the parser,
so `get_geo_string` returns null, writes nothing to the cache, and logs no
error (while still having made the one network call). -/
theorem c10_geo_empty_success_noop (enabled : Bool) (ttl failure_ttl : Int)
    (cache : List (String × GeoEntry)) (ip : String) (now : Int)
    (fn : String → Option String × Option String) (resp : IpwhoResp)
    (h200 : resp.status_code = 200) (hsucc : resp.success = true)
    (hcity : resp.city = none) (hregion : resp.region = none)
    (hcountry : resp.country = none) (horg : resp.org = none)
    (hcorg : resp.connection_org = none) (hcisp : resp.connection_isp = none)
    (hen : enabled = true) (hip : pyStrip ip ≠ "")
    (hmiss : dictFind cache (pyStrip ip) = none ∨
      ∃ e, dictFind cache (pyStrip ip) = some e ∧
        cachedFreshSummary e now ttl = none ∧
        cachedFreshFailure e now failure_ttl = false)
    (hfn : fn (pyStrip ip) = lookup_ipwho_is resp) :
    lookup_ipwho_is resp = (none, none) ∧
    get_geo_string enabled ttl failure_ttl cache ip now fn =
      ⟨none, cache, 1, none⟩ := by
  have hresp : lookup_ipwho_is resp = (none, none) := by
    simp [lookup_ipwho_is, h200, hsucc, hcity, hregion, hcountry, horg,
      hcorg, hcisp, strTruthy, pyOr]
  refine ⟨hresp, ?_⟩
  have hfn' : fn (pyStrip ip) = (none, none) := hfn.trans hresp
  rcases hmiss with hnone | ⟨e, hfind, hfresh, hff⟩
  · simp [get_geo_string, hen, hip, hnone, geoPerformLookup, hfn', strTruthy]
  · simp [get_geo_string, hen, hip, hfind, hfresh, hff, geoPerformLookup,
      hfn', strTruthy]

/-- C10 witness: the scenario at a concrete empty-but-successful response. -/
theorem c10_geo_empty_success_noop_witness :
    get_geo_string true 86400 1800 [] "1.2.3.4" 1000
      (fun _ =>
        lookup_ipwho_is ⟨200, true, none, none, none, none, none, none, none⟩)
      = ⟨none, [], 1, none⟩ :=
  (c10_geo_empty_success_noop true 86400 1800 [] "1.2.3.4" 1000
    (fun _ =>
      lookup_ipwho_is ⟨200, true, none, none, none, none, none, none, none⟩)
    ⟨200, true, none, none, none, none, none, none, none⟩
    rfl rfl rfl rfl rfl rfl rfl rfl rfl (by decide) (Or.inl rfl) rfl).2

/-! ## C6: latest-logon selection -/

/-- The per-user fold the event loop performs, from an arbitrary
accumulator. -/
def logonFold (events : List SecEvent) (acc : Option String × Option Int) :
    Option String × Option Int :=
  events.foldl (fun c e => logonStep c e.ip e.time_utc) acc

theorem logonFold_cons (e : SecEvent) (rest : List SecEvent)
    (acc : Option String × Option Int) :
    logonFold (e :: rest) acc =
      logonFold rest (logonStep acc e.ip e.time_utc) := rfl

theorem maxEventTime_cons (e : SecEvent) (rest : List SecEvent) :
    maxEventTime (e :: rest) =
      match e.time_utc, maxEventTime rest with
      | none, m => m
      | some t, none => some t
      | some t, some m => some (max t m) := rfl

theorem logonStep_none (x : Option String) (ip : String) (tu : Option Int) :
    logonStep (x, none) ip tu = (some ip, tu) := rfl

theorem logonStep_some_none (x : Option String) (t0 : Int) (ip : String) :
    logonStep (x, some t0) ip none = (x, some t0) := rfl

theorem logonStep_some_some (x : Option String) (t0 : Int) (ip : String)
    (te : Int) :
    logonStep (x, some t0) ip (some te) =
      if te > t0 then (some ip, some te) else (x, some t0) := rfl

/-- When the running maximum is `none`, every timestamp in the list is
null. -/
theorem maxEventTime_none_time (q : List SecEvent)
    (h : maxEventTime q = none) : ∀ e ∈ q, e.time_utc = none := by
  induction q with
  | nil => intro e he; exact absurd he (List.not_mem_nil e)
  | cons e rest ih =>
    rw [maxEventTime_cons] at h
    intro e' he'
    cases he : e.time_utc with
    | some te =>
      rw [he] at h
      cases hrest : maxEventTime rest with
      | none => rw [hrest] at h; exact Option.noConfusion h
      | some m => rw [hrest] at h; exact Option.noConfusion h
    | none =>
      rw [he] at h
      rcases List.mem_cons.mp he' with rfl | hmem
      · exact he
      · exact ih h e' hmem

/-- `maxEventTime` bounds every non-null timestamp of the list. -/
theorem maxEventTime_le (q : List SecEvent) (t : Int)
    (h : maxEventTime q = some t) :
    ∀ e ∈ q, ∀ t', e.time_utc = some t' → t' ≤ t := by
  induction q generalizing t with
  | nil => intro e he; exact absurd he (List.not_mem_nil e)
  | cons e rest ih =>
    intro e' he' t' ht'
    rw [maxEventTime_cons] at h
    cases he : e.time_utc with
    | none =>
      rw [he] at h
      rcases List.mem_cons.mp he' with rfl | hmem
      · rw [he] at ht'; exact Option.noConfusion ht'
      · exact ih t h e' hmem t' ht'
    | some te =>
      rw [he] at h
      cases hrest : maxEventTime rest with
      | none =>
        rw [hrest] at h
        have hte : te = t := Option.some.inj h
        rcases List.mem_cons.mp he' with rfl | hmem
        · rw [he] at ht'
          have := Option.some.inj ht'
          omega
        · rw [maxEventTime_none_time rest hrest e' hmem] at ht'
          exact Option.noConfusion ht'
      | some m =>
        rw [hrest] at h
        have hmax : max te m = t := Option.some.inj h
        rcases List.mem_cons.mp he' with rfl | hmem
        · rw [he] at ht'
          have h2 := Option.some.inj ht'
          rw [← h2]
          calc te ≤ max te m := le_max_left _ _
            _ = t := hmax
        · calc t' ≤ m := ih m hrest e' hmem t' ht'
            _ ≤ max te m := le_max_right _ _
            _ = t := hmax

/-- An accumulator holding the running maximum is kept by events whose
timestamps do not exceed it. -/
theorem logonFold_keep (q : List SecEvent) (x : Option String) (t0 : Int)
    (h : ∀ e ∈ q, ∀ t', e.time_utc = some t' → t' ≤ t0) :
    logonFold q (x, some t0) = (x, some t0) := by
  induction q with
  | nil => rfl
  | cons e rest ih =>
    rw [logonFold_cons]
    have hstep : logonStep (x, some t0) e.ip e.time_utc = (x, some t0) := by
      cases he : e.time_utc with
      | none => exact logonStep_some_none x t0 e.ip
      | some te =>
        have hle : te ≤ t0 := h e (List.mem_cons_self e rest) te he
        rw [logonStep_some_some]
        exact if_neg (not_lt.mpr hle)
    rw [hstep]
    exact ih fun e' he' => h e' (List.mem_cons_of_mem e he')

/-- From an accumulator strictly below the list's maximum timestamp, the
fold ends at the first event carrying the maximum. -/
theorem logonFold_max_from_some (q : List SecEvent) (t : Int)
    (hmax : maxEventTime q = some t) :
    ∀ (x : Option String) (t0 : Int), t0 < t →
      ∃ e, q.find? (fun e => e.time_utc == some t) = some e ∧
        logonFold q (x, some t0) = (some e.ip, some t) := by
  induction q generalizing t with
  | nil => exact absurd hmax Option.noConfusion
  | cons e rest ih =>
    intro x t0 hlt
    rw [maxEventTime_cons] at hmax
    rw [logonFold_cons]
    cases he : e.time_utc with
    | none =>
      rw [he] at hmax
      obtain ⟨e', hfind, hfold⟩ := ih t hmax x t0 hlt
      refine ⟨e', ?_, ?_⟩
      · rw [List.find?_cons_of_neg _ (by simp [he]), hfind]
      · rw [logonStep_some_none]
        exact hfold
    | some te =>
      rw [he] at hmax
      cases hrest : maxEventTime rest with
      | none =>
        rw [hrest] at hmax
        have hte : te = t := Option.some.inj hmax
        subst hte
        refine ⟨e, List.find?_cons_of_pos _ (by simp [he]), ?_⟩
        rw [logonStep_some_some, if_pos hlt]
        refine logonFold_keep rest (some e.ip) te fun e' he' t' ht' => ?_
        rw [maxEventTime_none_time rest hrest e' he'] at ht'
        exact Option.noConfusion ht'
      | some m =>
        rw [hrest] at hmax
        have hmaxeq : max te m = t := Option.some.inj hmax
        by_cases hte : te = t
        · subst hte
          refine ⟨e, List.find?_cons_of_pos _ (by simp [he]), ?_⟩
          rw [logonStep_some_some, if_pos hlt]
          have hm : m ≤ te := by
            have h1 := le_max_right te m
            rw [hmaxeq] at h1
            exact h1
          exact logonFold_keep rest (some e.ip) te fun e' he' t' ht' =>
            le_trans (maxEventTime_le rest m hrest e' he' t' ht') hm
        · have hm : m = t := by
            rcases max_choice te m with hc | hc
            · rw [hc] at hmaxeq; exact absurd hmaxeq hte
            · rw [hc] at hmaxeq; exact hmaxeq
          have hte' : te < t := by
            have h1 := le_max_left te m
            rw [hmaxeq] at h1
            exact lt_of_le_of_ne h1 hte
          rw [hm] at hrest
          by_cases hgt : te > t0
          · obtain ⟨e', hfind, hfold⟩ := ih t hrest (some e.ip) te hte'
            refine ⟨e', ?_, ?_⟩
            · rw [List.find?_cons_of_neg _ (by simp [he, hte]), hfind]
            · rw [logonStep_some_some, if_pos hgt]
              exact hfold
          · obtain ⟨e', hfind, hfold⟩ := ih t hrest x t0 hlt
            refine ⟨e', ?_, ?_⟩
            · rw [List.find?_cons_of_neg _ (by simp [he, hte]), hfind]
            · rw [logonStep_some_some, if_neg hgt]
              exact hfold

/-- From the initial accumulator (no timestamp held), the fold ends at the
first event carrying the list's maximum timestamp. -/
theorem logonFold_max_from_none (q : List SecEvent) (t : Int)
    (hmax : maxEventTime q = some t) (x : Option String) :
    ∃ e, q.find? (fun e => e.time_utc == some t) = some e ∧
      logonFold q (x, none) = (some e.ip, some t) := by
  induction q generalizing t x with
  | nil => exact absurd hmax Option.noConfusion
  | cons e rest ih =>
    rw [maxEventTime_cons] at hmax
    rw [logonFold_cons]
    cases he : e.time_utc with
    | none =>
      rw [he] at hmax
      obtain ⟨e', hfind, hfold⟩ := ih t hmax (some e.ip)
      refine ⟨e', ?_, ?_⟩
      · rw [List.find?_cons_of_neg _ (by simp [he]), hfind]
      · rw [logonStep_none]
        exact hfold
    | some te =>
      rw [he] at hmax
      cases hrest : maxEventTime rest with
      | none =>
        rw [hrest] at hmax
        have hte : te = t := Option.some.inj hmax
        subst hte
        refine ⟨e, List.find?_cons_of_pos _ (by simp [he]), ?_⟩
        rw [logonStep_none]
        refine logonFold_keep rest (some e.ip) te fun e' he' t' ht' => ?_
        rw [maxEventTime_none_time rest hrest e' he'] at ht'
        exact Option.noConfusion ht'
      | some m =>
        rw [hrest] at hmax
        have hmaxeq : max te m = t := Option.some.inj hmax
        by_cases hte : te = t
        · subst hte
          refine ⟨e, List.find?_cons_of_pos _ (by simp [he]), ?_⟩
          rw [logonStep_none]
          have hm : m ≤ te := by
            have h1 := le_max_right te m
            rw [hmaxeq] at h1
            exact h1
          exact logonFold_keep rest (some e.ip) te fun e' he' t' ht' =>
            le_trans (maxEventTime_le rest m hrest e' he' t' ht') hm
        · have hm : m = t := by
            rcases max_choice te m with hc | hc
            · rw [hc] at hmaxeq; exact absurd hmaxeq hte
            · rw [hc] at hmaxeq; exact hmaxeq
          have hte' : te < t := by
            have h1 := le_max_left te m
            rw [hmaxeq] at h1
            exact lt_of_le_of_ne h1 hte
          rw [hm] at hrest
          obtain ⟨e', hfind, hfold⟩ :=
            logonFold_max_from_some rest t hrest (some e.ip) te hte'
          refine ⟨e', ?_, ?_⟩
          · rw [List.find?_cons_of_neg _ (by simp [he, hte]), hfind]
          · rw [logonStep_none]
            exact hfold

/-- The per-user projection of the event-loop fold over an arbitrary
starting map equals the per-user fold over that user's qualifying events. -/
theorem logons_foldl_proj (wl : List String) (evs : List SecEvent)
    (u : String) :
    ∀ m : String → Option String × Option Int,
    (evs.foldl
      (fun result e =>
        if eventQualifies wl e then
          fun u' =>
            if u' = pyLower e.target_user then
              logonStep (result (pyLower e.target_user)) e.ip e.time_utc
            else result u'
        else result)
      m) u =
    logonFold
      (evs.filter fun e => eventQualifies wl e && pyLower e.target_user = u)
      (m u) := by
  induction evs with
  | nil => intro m; rfl
  | cons e rest ih =>
    intro m
    rw [List.foldl_cons]
    by_cases hq : eventQualifies wl e = true
    · rw [if_pos hq]
      by_cases ht : pyLower e.target_user = u
      · rw [List.filter_cons_of_pos (by simp [hq, ht]), logonFold_cons, ih]
        congr 1
        show (if u = pyLower e.target_user then
            logonStep (m (pyLower e.target_user)) e.ip e.time_utc
          else m u) = logonStep (m u) e.ip e.time_utc
        rw [if_pos ht.symm, ht]
      · rw [List.filter_cons_of_neg (by simp [hq, ht]), ih]
        congr 1
        show (if u = pyLower e.target_user then
            logonStep (m (pyLower e.target_user)) e.ip e.time_utc
          else m u) = m u
        rw [if_neg fun hh => ht hh.symm]
    · rw [if_neg hq, List.filter_cons_of_neg (by simp [hq])]
      exact ih m

/-- The kept per-user pair of `get_latest_rdp_logons` is the per-user fold
over that user's qualifying events. -/
theorem get_latest_rdp_logons_eq_fold (usernames : List String)
    (events : List SecEvent) (u : String) :
    get_latest_rdp_logons usernames events u =
      logonFold (qualifyingFor usernames events u) (none, none) :=
  logons_foldl_proj (usernames.map pyLower) events u fun _ => (none, none)

/-- C6: within one security-log fetch, the `(ip, time)` pair kept for a user
is the first-seen qualifying event that attains the latest non-null
timestamp — later events replace only on a strictly greater timestamp, so
ties resolve to the first seen, and null-timestamp events never displace a
held timestamp. -/
theorem c6_latest_logon_selection (usernames : List String)
    (events : List SecEvent) (u : String) (t : Int)
    (hmax : maxEventTime (qualifyingFor usernames events u) = some t) :
    ∃ e, (qualifyingFor usernames events u).find?
        (fun e => e.time_utc == some t) = some e ∧
      get_latest_rdp_logons usernames events u = (some e.ip, some t) ∧
      ∀ e' ∈ qualifyingFor usernames events u, ∀ t',
        e'.time_utc = some t' → t' ≤ t := by
  obtain ⟨e, hfind, hfold⟩ :=
    logonFold_max_from_none (qualifyingFor usernames events u) t hmax none
  exact ⟨e, hfind,
    (get_latest_rdp_logons_eq_fold usernames events u).trans hfold,
    maxEventTime_le _ t hmax⟩

/-- C6 witness: among four qualifying events for "alice" — time 5, a tie at
time 9 appearing twice, and a null time between them — the kept pair is the
first event seen with timestamp 9. -/
theorem c6_latest_logon_selection_witness :
    ∃ e, (qualifyingFor ["alice"]
        [⟨some 5, "Alice", "10", "1.2.3.4"⟩,
         ⟨some 9, "alice", "7", "5.6.7.8"⟩,
         ⟨none, "alice", "10", "9.9.9.9"⟩,
         ⟨some 9, "alice", "10", "7.7.7.7"⟩] "alice").find?
        (fun e => e.time_utc == some 9) = some e ∧
      get_latest_rdp_logons ["alice"]
        [⟨some 5, "Alice", "10", "1.2.3.4"⟩,
         ⟨some 9, "alice", "7", "5.6.7.8"⟩,
         ⟨none, "alice", "10", "9.9.9.9"⟩,
         ⟨some 9, "alice", "10", "7.7.7.7"⟩] "alice" = (some e.ip, some 9) ∧
      ∀ e' ∈ qualifyingFor ["alice"]
        [⟨some 5, "Alice", "10", "1.2.3.4"⟩,
         ⟨some 9, "alice", "7", "5.6.7.8"⟩,
         ⟨none, "alice", "10", "9.9.9.9"⟩,
         ⟨some 9, "alice", "10", "7.7.7.7"⟩] "alice", ∀ t',
        e'.time_utc = some t' → t' ≤ 9 :=
  c6_latest_logon_selection ["alice"]
    [⟨some 5, "Alice", "10", "1.2.3.4"⟩,
     ⟨some 9, "alice", "7", "5.6.7.8"⟩,
     ⟨none, "alice", "10", "9.9.9.9"⟩,
     ⟨some 9, "alice", "10", "7.7.7.7"⟩] "alice" 9 (by decide)

/-! ## C2: fingerprint stability and sensitivity -/

/-- A row none of whose rendered text depends on the "last checked" time:
no last-logon time, no last-disconnect time, no pending-disconnect mark
(rows carrying any of those render an elapsed duration computed from the
"last checked" time). -/
def timestampFreeRow (row : UserPanelRow) : Bool :=
  row.last_rdp_time_utc.isNone && row.last_rdp_disconnect_time_utc.isNone &&
    row.pending_disconnect_since.isNone

/-- The rendered field value of a timestamp-free row does not depend on the
"last checked" time. -/
theorem buildFieldValue_time_free (tolerance : Int) (row : UserPanelRow)
    (t1 t2 : Int) (h : timestampFreeRow row = true) :
    buildFieldValue tolerance row t1 = buildFieldValue tolerance row t2 := by
  have h3 := h
  simp only [timestampFreeRow, Bool.and_eq_true, Option.isNone_iff_eq_none]
    at h3
  obtain ⟨⟨h1, h2⟩, hp⟩ := h3
  simp only [buildFieldValue, h1, h2, hp, strTruthy]

/-- A concrete active row used to witness fingerprint sensitivity. -/
def rowActiveBase : UserPanelRow :=
  { username := "alice", state := "Active", idle := ⟨"3", some 3⟩
    engaged := true, session_id := some "2", session_name := some "rdp-tcp#1"
    logon_time_raw := none, last_rdp_ip := some "1.2.3.4"
    last_rdp_time_utc := none, last_rdp_disconnect_time_utc := none
    pending_disconnect_since := none, pending_disconnect := false
    last_rdp_geo := none }

/-- `rowActiveBase` with a different state. -/
def rowActiveState : UserPanelRow := { rowActiveBase with state := "Away" }

/-- `rowActiveBase` with a different idle duration. -/
def rowActiveIdle : UserPanelRow :=
  { rowActiveBase with idle := ⟨"500", some 500⟩ }

/-- `rowActiveBase` with a different connecting IP. -/
def rowActiveIp : UserPanelRow :=
  { rowActiveBase with last_rdp_ip := some "5.6.7.8" }

/-- A concrete disconnected row whose field text embeds an elapsed duration
computed from the "last checked" time. -/
def rowDiscBase : UserPanelRow :=
  { username := "bob", state := "Disc", idle := ⟨"3", some 3⟩
    engaged := false, session_id := none, session_name := none
    logon_time_raw := none, last_rdp_ip := none
    last_rdp_time_utc := none, last_rdp_disconnect_time_utc := some 1000
    pending_disconnect_since := none, pending_disconnect := false
    last_rdp_geo := none }

/-- `rowDiscBase` with a different idle duration (idle is not rendered for
non-active rows). -/
def rowDiscIdle : UserPanelRow :=
  { rowDiscBase with idle := ⟨"500", some 500⟩ }

/-- C2 counterexample: the claim fails in both directions on concrete rows.
A disconnected row with a last-disconnect time renders "(1m ago)" versus
"(2h 0m ago)" at two different "last checked" times, so the two fingerprints
differ even though only the timestamp changed; and changing that row\'s idle
minutes from 3 to 500 leaves the fingerprint identical, because idle text is
not rendered for non-active rows. -/
theorem c2_fingerprint_claim_false :
    panelFingerprint 120 "host" [] [rowDiscBase] 1060 ≠
      panelFingerprint 120 "host" [] [rowDiscBase] 8200 ∧
    panelFingerprint 120 "host" [] [rowDiscBase] 1060 =
      panelFingerprint 120 "host" [] [rowDiscIdle] 1060 := by
  constructor
  · decide
  · decide

/-- C2 as amended: the canonical serialization excludes the embed timestamp
field, so for row sets in which no row carries a last-logon time, a
last-disconnect time or a pending-disconnect mark (those render elapsed
durations computed from "last checked"), rendering at two different "last
checked" times yields identical fingerprints; and for a concrete active row,
changing the state, the idle minutes, or the IP changes the fingerprint. -/
theorem c2_fingerprint_stability :
    (∀ (tolerance : Int) (hostname : String)
        (user_aliases : List (String × String)) (rows : List UserPanelRow)
        (t1 t2 : Int),
      (∀ r ∈ rows, timestampFreeRow r = true) →
      panelFingerprint tolerance hostname user_aliases rows t1 =
        panelFingerprint tolerance hostname user_aliases rows t2) ∧
    panelFingerprint 120 "host" [] [rowActiveBase] 0 ≠
      panelFingerprint 120 "host" [] [rowActiveState] 0 ∧
    panelFingerprint 120 "host" [] [rowActiveBase] 0 ≠
      panelFingerprint 120 "host" [] [rowActiveIdle] 0 ∧
    panelFingerprint 120 "host" [] [rowActiveBase] 0 ≠
      panelFingerprint 120 "host" [] [rowActiveIp] 0 := by
  refine ⟨?_, by decide, by decide, by decide⟩
  intro tolerance hostname user_aliases rows t1 t2 hrows
  have hfields :
      rows.map (fun row => buildField tolerance user_aliases row t1) =
        rows.map (fun row => buildField tolerance user_aliases row t2) := by
    refine List.map_congr_left fun r hr => ?_
    simp only [buildField]
    rw [buildFieldValue_time_free tolerance r t1 t2 (hrows r hr)]
  simp only [panelFingerprint, embed_to_stable_json, build_embed]
  rw [hfields]

/-- C2 witness: two renders of a timestamp-free row set at different "last
checked" times share one fingerprint. -/
theorem c2_fingerprint_stability_witness :
    panelFingerprint 120 "host" [] [rowActiveBase] 5 =
      panelFingerprint 120 "host" [] [rowActiveBase] 999 :=
  c2_fingerprint_stability.1 120 "host" [] [rowActiveBase] 5 999 (by decide)

end SessionMonitor
